import Mathlib

/-!
# Verification of the rust-papertrail-lib asynchronous logger

Shallow embedding of `src/lib.rs` (the `AsyncLogger` dispatcher task) and of
its per-record processing.  Strings are modelled as `List Char`; machine
integers (`u64`, `usize`) as `Nat`; wall-clock instants as `Nat` milliseconds.
Fallible IO steps (directory creation, file open, TCP connect, TLS handshake)
are modelled by explicit success flags, matching the `Result` branches of the
source.
-/

namespace Papertrail

/-- The five levels of the `log` crate (`log::Level`). -/
inductive LogLevel
  | error
  | warn
  | info
  | debug
  | trace
deriving DecidableEq, Repr

/-- Severity chosen in the dispatcher loop (lib.rs lines 280-285):
`Error => 3, Warn => 4, Info => 6, Debug | Trace => 7`. -/
def severity : LogLevel → Nat
  | .error => 3
  | .warn => 4
  | .info => 6
  | .debug => 7
  | .trace => 7

/-- The syslog facility used by the code: facility 1 (user-level).  The
source writes the literal `8`, i.e. `facility * 8` with facility 1. -/
def facility : Nat := 1

/-- Syslog priority as computed at lib.rs line 280: `let pri = 8 + severity`. -/
def priVal (lvl : LogLevel) : Nat := 8 + severity lvl

/-- Uppercase rendering of `log::Level` (its `Display` impl). -/
def levelChars : LogLevel → List Char
  | .error => ['E', 'R', 'R', 'O', 'R']
  | .warn => ['W', 'A', 'R', 'N']
  | .info => ['I', 'N', 'F', 'O']
  | .debug => ['D', 'E', 'B', 'U', 'G']
  | .trace => ['T', 'R', 'A', 'C', 'E']

/-- Decimal digit to character. -/
def digitChar : Nat → Char
  | 0 => '0' | 1 => '1' | 2 => '2' | 3 => '3' | 4 => '4'
  | 5 => '5' | 6 => '6' | 7 => '7' | 8 => '8' | _ => '9'

/-- Character back to digit value (left inverse of `digitChar` below 10). -/
def digitVal (c : Char) : Nat :=
  if c = '0' then 0 else if c = '1' then 1 else if c = '2' then 2
  else if c = '3' then 3 else if c = '4' then 4 else if c = '5' then 5
  else if c = '6' then 6 else if c = '7' then 7 else if c = '8' then 8 else 9

/-- Fuelled decimal renderer; `fuel > n` suffices for full rendering. -/
def natReprGo : Nat → Nat → List Char
  | 0, _ => []
  | fuel + 1, n =>
    if n < 10 then [digitChar n]
    else natReprGo fuel (n / 10) ++ [digitChar (n % 10)]

/-- Decimal rendering of a natural number, as Rust's `Display` for integers
formats it (no sign, no leading zeros, `0 ↦ "0"`). -/
def natRepr (n : Nat) : List Char := natReprGo (n + 1) n

/-- The RFC 5424 frame built at lib.rs line 287:
`format!("<{}>1 {} {} {} - - - [{}] {}\n", pri, now, hostname, msg.target, msg.level, msg.body)`. -/
def syslogFrame (lvl : LogLevel) (ts hostname target body : List Char) : List Char :=
  ['<'] ++ natRepr (priVal lvl) ++ ['>', '1', ' '] ++ ts ++ [' '] ++ hostname ++
  [' '] ++ target ++ [' '] ++ ['-', ' ', '-', ' ', '-', ' ', '['] ++
  levelChars lvl ++ [']', ' '] ++ body ++ ['\n']

/-- The local-file line built at lib.rs line 259:
`format!("[{}][{}][{}] {}\n", now, msg.level, msg.target, msg.body)`. -/
def logLine (lvl : LogLevel) (ts target body : List Char) : List Char :=
  ['['] ++ ts ++ [']', '['] ++ levelChars lvl ++ [']', '['] ++ target ++
  [']', ' '] ++ body ++ ['\n']

/-- C1: the priority actually written is `facility * 8 + severity` with
facility = 1. -/
theorem priVal_eq_facility_mul (lvl : LogLevel) :
    priVal lvl = facility * 8 + severity lvl := by
  cases lvl <;> rfl

theorem natRepr_eleven : natRepr 11 = ['1', '1'] := by decide

/-- C1 -- For every record forwarded to the Remote Sink, the syslog priority is
`facility * 8 + severity` with facility = 1 and severity ERROR→3, WARN→4,
INFO→6, DEBUG→7, TRACE→7, so the emitted frame begins with exactly `<11>`,
`<12>`, `<14>`, `<15>`, `<15>` for ERROR, WARN, INFO, DEBUG, TRACE. -/
theorem priority_mapping (ts hostname target body : List Char) :
    (∀ lvl, priVal lvl = facility * 8 + severity lvl) ∧
    severity .error = 3 ∧ severity .warn = 4 ∧ severity .info = 6 ∧
    severity .debug = 7 ∧ severity .trace = 7 ∧
    (syslogFrame .error ts hostname target body).take 4 = ['<', '1', '1', '>'] ∧
    (syslogFrame .warn ts hostname target body).take 4 = ['<', '1', '2', '>'] ∧
    (syslogFrame .info ts hostname target body).take 4 = ['<', '1', '4', '>'] ∧
    (syslogFrame .debug ts hostname target body).take 4 = ['<', '1', '5', '>'] ∧
    (syslogFrame .trace ts hostname target body).take 4 = ['<', '1', '5', '>'] := by
  refine ⟨priVal_eq_facility_mul, rfl, rfl, rfl, rfl, rfl, ?_, ?_, ?_, ?_, ?_⟩ <;>
    simp [syslogFrame, priVal, severity, natRepr, natReprGo, digitChar]

/-! ## C2: syslog framing against the spec's regular expression

The spec's pattern is `^<\d{1,3}>1 \S+ \S+ \S+ - - - \[(ERROR|WARN|INFO|DEBUG|TRACE)\] .*\n$`.
This pattern is deterministic, so it is formalised as a functional matcher:
each `\S+` is followed in the pattern by a literal space, so it must match
exactly the maximal run of non-whitespace characters before the next space
(`\S` cannot match the space, and stopping earlier leaves a non-space where
the pattern demands a space); `\d{1,3}` is followed by `>`, which is not a
digit, so it matches the maximal digit run, of length 1 to 3; the level
alternatives start with five distinct letters, so at most one can apply; and
`.*\n$` with `.` excluding newline succeeds exactly when the remainder is
newline-free text followed by one final newline. -/

/-- Regex `\d`: ASCII digit. -/
def isDigitC (c : Char) : Bool := '0' ≤ c && c ≤ '9'

/-- Regex whitespace class (`\s`, complement of `\S`):
space, tab, newline, carriage return, vertical tab, form feed. -/
def isSpaceC (c : Char) : Bool :=
  c = ' ' || c = '\t' || c = '\n' || c = '\r' || c = '\x0b' || c = '\x0c'

/-- Consume an exact literal prefix. -/
def eatLit : List Char → List Char → Option (List Char)
  | [], s => some s
  | _ :: _, [] => none
  | c :: cs, d :: s => if c = d then eatLit cs s else none

/-- Consume `\S+ ` (one or more non-whitespace characters, then a space). -/
def eatTok (s : List Char) : Option (List Char) :=
  let t := s.takeWhile (fun c => !isSpaceC c)
  if t.isEmpty then none
  else
    match s.drop t.length with
    | ' ' :: r => some r
    | _ => none

/-- Consume one of the five level names. -/
def eatLevelTag (s : List Char) : Option (List Char) :=
  (eatLit (levelChars .error) s).orElse fun _ =>
  (eatLit (levelChars .warn) s).orElse fun _ =>
  (eatLit (levelChars .info) s).orElse fun _ =>
  (eatLit (levelChars .debug) s).orElse fun _ =>
  eatLit (levelChars .trace) s

/-- Accept `.*\n$`: newline-free text followed by a single final newline. -/
def tailNL : List Char → Bool
  | [] => false
  | c :: rest => if rest.isEmpty then c = '\n' else (c != '\n') && tailNL rest

/-- Consume `<\d{1,3}>1 ` (priority head plus version and separator). -/
def eatPriHead (s : List Char) : Option (List Char) :=
  (eatLit ['<'] s).bind fun r =>
    let ds := r.takeWhile isDigitC
    if ds.length = 0 || 3 < ds.length then none
    else eatLit ['>', '1', ' '] (r.drop ds.length)

/-- Consume everything of the pattern before `.*\n$`. -/
def matchTail (s : List Char) : Option (List Char) :=
  ((((((eatPriHead s).bind eatTok).bind eatTok).bind eatTok).bind
      (eatLit ['-', ' ', '-', ' ', '-', ' ', '['])).bind eatLevelTag).bind
    (eatLit [']', ' '])

/-- The full anchored pattern
`^<\d{1,3}>1 \S+ \S+ \S+ - - - \[(ERROR|WARN|INFO|DEBUG|TRACE)\] .*\n$`. -/
def matchFrame (s : List Char) : Bool :=
  match matchTail s with
  | some r => tailNL r
  | none => false

theorem eatLit_self_append (l r : List Char) : eatLit l (l ++ r) = some r := by
  induction l with
  | nil => rfl
  | cons c cs ih => simp [eatLit, ih]

theorem eatTok_append (tok r : List Char) (h1 : tok ≠ [])
    (h2 : ∀ c ∈ tok, isSpaceC c = false) :
    eatTok (tok ++ (' ' :: r)) = some r := by
  have htake : (tok ++ (' ' :: r)).takeWhile (fun c => !isSpaceC c) = tok := by
    induction tok with
    | nil => simp at h1
    | cons c cs ih =>
      have hc : isSpaceC c = false := h2 c (by simp)
      have hsp : isSpaceC ' ' = true := by decide
      by_cases hcs : cs = []
      · subst hcs
        simp [List.takeWhile_cons, hc, hsp]
      · have := ih hcs (fun d hd => h2 d (by simp [hd]))
        simpa [List.takeWhile_cons, hc] using this
  simp only [eatTok, htake]
  have hne : tok.isEmpty = false := by
    cases tok with
    | nil => simp at h1
    | cons _ _ => rfl
  simp [hne, List.drop_left]

theorem tailNL_append (body : List Char) (h : '\n' ∉ body) :
    tailNL (body ++ ['\n']) = true := by
  induction body with
  | nil => rfl
  | cons c cs ih =>
    have hc : c ≠ '\n' := fun hh => h (by simp [hh])
    have hcs : '\n' ∉ cs := fun hh => h (by simp [hh])
    have hne : (cs ++ ['\n']).isEmpty = false := by
      cases cs <;> rfl
    simp only [List.cons_append, tailNL, hne]
    simp [hc, ih hcs]

theorem takeWhile_digits_append (D r : List Char)
    (hd : ∀ c ∈ D, isDigitC c = true) :
    (D ++ ('>' :: r)).takeWhile isDigitC = D := by
  have hgt : isDigitC '>' = false := by decide
  induction D with
  | nil => simp [List.takeWhile_cons, hgt]
  | cons c cs ih =>
    have hc : isDigitC c = true := hd c (by simp)
    have := ih (fun d hdm => hd d (by simp [hdm]))
    simpa [List.takeWhile_cons, hc] using this

theorem eatPriHead_append (D r : List Char) (h0 : D ≠ []) (h3 : D.length ≤ 3)
    (hd : ∀ c ∈ D, isDigitC c = true) :
    eatPriHead ('<' :: (D ++ ('>' :: '1' :: ' ' :: r))) = some r := by
  have htake : (D ++ ('>' :: '1' :: ' ' :: r)).takeWhile isDigitC = D :=
    takeWhile_digits_append D ('1' :: ' ' :: r) hd
  have hlen0 : D.length ≠ 0 := by
    cases D with
    | nil => simp at h0
    | cons _ _ => simp
  have hlen3 : ¬3 < D.length := by omega
  have hlt : eatLit ['<'] ('<' :: (D ++ ('>' :: '1' :: ' ' :: r))) =
      some (D ++ ('>' :: '1' :: ' ' :: r)) := by
    simp [eatLit]
  have hdrop : List.drop D.length (D ++ ('>' :: '1' :: ' ' :: r)) =
      '>' :: '1' :: ' ' :: r :=
    List.drop_left D _
  have hfin : eatLit ['>', '1', ' '] ('>' :: '1' :: ' ' :: r) = some r := by
    simp [eatLit]
  simp only [eatPriHead, hlt, Option.some_bind, htake, hdrop]
  rw [if_neg]
  · exact hfin
  · simp [hlen0, hlen3]

theorem eatLevelTag_append (lvl : LogLevel) (r : List Char) :
    eatLevelTag (levelChars lvl ++ r) = some r := by
  cases lvl <;>
    simp [eatLevelTag, levelChars, eatLit, Option.orElse]

/-- C2 counterexample -- the record INFO / target `t` / body `a\nb` (with
hostname `h` and a well-formed RFC 3339 timestamp) yields a remote frame
that does **not** match the spec's regular expression: the body's interior
newline cannot be matched by `.` and breaks the `\n$` anchor. -/
theorem syslog_framing_counterexample :
    matchFrame (syslogFrame .info
      (String.toList "2024-01-01T00:00:00+00:00")
      (String.toList "h") (String.toList "t")
      (String.toList "a\nb")) = false := by
  decide

/-- C2 (amended) -- For every record forwarded to the Remote Sink, exactly one
frame `<PRI>1 TIMESTAMP HOSTNAME TARGET - - - [LEVEL] BODY\n` is written, and
it matches `^<\d{1,3}>1 \S+ \S+ \S+ - - - \[(ERROR|WARN|INFO|DEBUG|TRACE)\] .*\n$`
**provided** the timestamp, hostname and target are nonempty and contain no
whitespace, and the body contains no newline; a body with an embedded newline
(arbitrary text) breaks the match. -/
theorem syslog_framing_amended (lvl : LogLevel) (ts hostname target body : List Char)
    (hts : ts ≠ []) (htsw : ∀ c ∈ ts, isSpaceC c = false)
    (hh : hostname ≠ []) (hhw : ∀ c ∈ hostname, isSpaceC c = false)
    (htg : target ≠ []) (htgw : ∀ c ∈ target, isSpaceC c = false)
    (hb : '\n' ∉ body) :
    matchFrame (syslogFrame lvl ts hostname target body) = true := by
  have hD0 : natRepr (priVal lvl) ≠ [] := by cases lvl <;> decide
  have hD3 : (natRepr (priVal lvl)).length ≤ 3 := by cases lvl <;> decide
  have hDd : ∀ c ∈ natRepr (priVal lvl), isDigitC c = true := by cases lvl <;> decide
  have hframe : syslogFrame lvl ts hostname target body =
      '<' :: (natRepr (priVal lvl) ++ ('>' :: '1' :: ' ' ::
        (ts ++ (' ' :: (hostname ++ (' ' :: (target ++ (' ' :: '-' :: ' ' ::
          '-' :: ' ' :: '-' :: ' ' :: '[' :: (levelChars lvl ++
          (']' :: ' ' :: (body ++ ['\n']))))))))))) := by
    simp [syslogFrame]
  have h1 : eatPriHead ('<' :: (natRepr (priVal lvl) ++ ('>' :: '1' :: ' ' ::
      (ts ++ (' ' :: (hostname ++ (' ' :: (target ++ (' ' :: '-' :: ' ' ::
        '-' :: ' ' :: '-' :: ' ' :: '[' :: (levelChars lvl ++
        (']' :: ' ' :: (body ++ ['\n'])))))))))))) =
      some (ts ++ (' ' :: (hostname ++ (' ' :: (target ++ (' ' :: '-' :: ' ' ::
        '-' :: ' ' :: '-' :: ' ' :: '[' :: (levelChars lvl ++
        (']' :: ' ' :: (body ++ ['\n']))))))))) :=
    eatPriHead_append (natRepr (priVal lvl)) _ hD0 hD3 hDd
  have h2 : eatTok (ts ++ (' ' :: (hostname ++ (' ' :: (target ++ (' ' :: '-' ::
      ' ' :: '-' :: ' ' :: '-' :: ' ' :: '[' :: (levelChars lvl ++
      (']' :: ' ' :: (body ++ ['\n'])))))))))  =
      some (hostname ++ (' ' :: (target ++ (' ' :: '-' :: ' ' :: '-' :: ' ' ::
        '-' :: ' ' :: '[' :: (levelChars lvl ++
        (']' :: ' ' :: (body ++ ['\n']))))))) :=
    eatTok_append ts _ hts htsw
  have h3 : eatTok (hostname ++ (' ' :: (target ++ (' ' :: '-' :: ' ' :: '-' ::
      ' ' :: '-' :: ' ' :: '[' :: (levelChars lvl ++
      (']' :: ' ' :: (body ++ ['\n'])))))))  =
      some (target ++ (' ' :: '-' :: ' ' :: '-' :: ' ' :: '-' :: ' ' :: '[' ::
        (levelChars lvl ++ (']' :: ' ' :: (body ++ ['\n']))))) :=
    eatTok_append hostname _ hh hhw
  have h4 : eatTok (target ++ (' ' :: '-' :: ' ' :: '-' :: ' ' :: '-' :: ' ' ::
      '[' :: (levelChars lvl ++ (']' :: ' ' :: (body ++ ['\n'])))))  =
      some ('-' :: ' ' :: '-' :: ' ' :: '-' :: ' ' :: '[' ::
        (levelChars lvl ++ (']' :: ' ' :: (body ++ ['\n'])))) :=
    eatTok_append target _ htg htgw
  have h5 : eatLit ['-', ' ', '-', ' ', '-', ' ', '[']
      ('-' :: ' ' :: '-' :: ' ' :: '-' :: ' ' :: '[' ::
        (levelChars lvl ++ (']' :: ' ' :: (body ++ ['\n'])))) =
      some (levelChars lvl ++ (']' :: ' ' :: (body ++ ['\n']))) := by
    simp [eatLit]
  have h6 : eatLevelTag (levelChars lvl ++ (']' :: ' ' :: (body ++ ['\n']))) =
      some (']' :: ' ' :: (body ++ ['\n'])) :=
    eatLevelTag_append lvl _
  have h7 : eatLit [']', ' '] (']' :: ' ' :: (body ++ ['\n'])) =
      some (body ++ ['\n']) := by
    simp [eatLit]
  rw [matchFrame, matchTail, hframe]
  simp only [h1, h2, h3, h4, h5, h6, h7, Option.some_bind]
  exact tailNL_append body hb

/-- Concrete instance of the amended C2 theorem: a well-formed DEBUG record
produces a frame accepted by the pattern. -/
theorem syslog_framing_amended_witness :
    matchFrame (syslogFrame .debug
      (String.toList "2024-01-01T00:00:00+00:00")
      (String.toList "myhost") (String.toList "app::mod")
      (String.toList "hello world")) = true :=
  syslog_framing_amended .debug _ _ _ _ (by decide) (by decide) (by decide)
    (by decide) (by decide) (by decide) (by decide)

/-! ## File sink: rotation and pruning (lib.rs 190-233, 261-275)

File paths are `List Char`.  The rotation file name embeds
`chrono::Local::now().format("%Y%m%dT%H%M%S%z")`, a rendering of the wall
clock with one-second resolution that is injective on the second count (for
a fixed zone); the model renders the absolute second count in decimal, and
takes the clock as a `Nat` of milliseconds, so that sub-second detail is
visible but dropped by the formatting exactly as `%H%M%S` drops it. -/

/-- `format!("log_{}.log", Local::now().format("%Y%m%dT%H%M%S%z"))`
(lib.rs 196), with the timestamp abstracted to the second count. -/
def rotName (sec : Nat) : List Char :=
  String.toList "log_" ++ natRepr sec ++ String.toList ".log"

/-- The rotation file name as a function of the clock in milliseconds: the
`%Y%m%dT%H%M%S%z` format has one-second resolution, so the name depends only
on `ms / 1000`. -/
def rotNameMs (ms : Nat) : List Char := rotName (ms / 1000)

/-- `while log_files.len() > max_files { if let Some(old) = pop_front { let _ =
remove_file(old); } }` (lib.rs 202-206).  Returns the retained sequence and
the list of deleted paths, oldest first; deletion is best-effort (`let _ =`),
so there is no failure branch. -/
def pruneFiles (maxFiles : Nat) : List (List Char) → List (List Char) × List (List Char)
  | [] => ([], [])
  | f :: rest =>
    if rest.length + 1 > maxFiles then
      let p := pruneFiles maxFiles rest
      (p.1, f :: p.2)
    else (f :: rest, [])

/-- `rotate_file` (lib.rs 190-208), success branch of the open: create the
timestamped path, open it create-and-append, push it on the back of the
deque, then prune.  Returns (retained sequence, deleted paths). -/
def rotateFile (sec maxFiles : Nat) (logFiles : List (List Char)) :
    List (List Char) × List (List Char) :=
  pruneFiles maxFiles (logFiles ++ [rotName sec])

theorem pruneFiles_eq (m : Nat) (l : List (List Char)) :
    pruneFiles m l = (l.drop (l.length - m), l.take (l.length - m)) := by
  induction l with
  | nil => simp [pruneFiles]
  | cons f rest ih =>
    by_cases h : rest.length + 1 > m
    · have hs : (f :: rest).length - m = (rest.length - m) + 1 := by
        simp only [List.length_cons]
        omega
      simp only [pruneFiles, if_pos h, ih, hs, List.drop_succ_cons,
        List.take_succ_cons]
    · have hs : rest.length + 1 - m = 0 := by omega
      simp [pruneFiles, if_neg h, List.length_cons, hs]

/-- C4 -- After every call to rotate returns, the tracked sequence has length
at most `max_files`: the new path is pushed on the newest end, and the while
loop pops oldest entries (deleting their files best-effort, failures ignored)
until the bound holds.  This holds for every prior state of the sequence,
including one seeded with arbitrarily many pre-existing `.log` files. -/
theorem rotation_retention_bound (sec maxFiles : Nat) (logFiles : List (List Char)) :
    (rotateFile sec maxFiles logFiles).1 =
      (logFiles ++ [rotName sec]).drop ((logFiles ++ [rotName sec]).length - maxFiles) ∧
    (rotateFile sec maxFiles logFiles).2 =
      (logFiles ++ [rotName sec]).take ((logFiles ++ [rotName sec]).length - maxFiles) ∧
    (rotateFile sec maxFiles logFiles).1.length ≤ maxFiles := by
  refine ⟨?_, ?_, ?_⟩
  · rw [rotateFile, pruneFiles_eq]
  · rw [rotateFile, pruneFiles_eq]
  · rw [rotateFile, pruneFiles_eq]
    simp only [List.length_drop]
    have : 0 < (logFiles ++ [rotName sec]).length := by simp
    omega

/-! ## C7: rotation file names and one-second resolution -/

/-- Decimal value of a digit string, accumulator style (left inverse of the
renderer, used only to prove the renderer injective). -/
def valAux (acc : Nat) : List Char → Nat
  | [] => acc
  | c :: r => valAux (acc * 10 + digitVal c) r

theorem valAux_append (l1 l2 : List Char) (acc : Nat) :
    valAux acc (l1 ++ l2) = valAux (valAux acc l1) l2 := by
  induction l1 generalizing acc with
  | nil => rfl
  | cons c cs ih => simp [valAux, ih]

theorem digitVal_digitChar : ∀ d < 10, digitVal (digitChar d) = d := by decide

theorem valAux_natReprGo (fuel : Nat) :
    ∀ n acc, n < fuel →
      valAux acc (natReprGo fuel n) = acc * 10 ^ (natReprGo fuel n).length + n := by
  induction fuel with
  | zero => omega
  | succ fuel ih =>
    intro n acc h
    by_cases h10 : n < 10
    · simp [natReprGo, h10, valAux, digitVal_digitChar n h10]
    · have hd : n / 10 < fuel := by
        have h1 : n / 10 < n := Nat.div_lt_self (by omega) (by norm_num)
        omega
      have hm : n % 10 < 10 := Nat.mod_lt _ (by norm_num)
      simp only [natReprGo, if_neg h10]
      rw [valAux_append, ih (n / 10) acc hd]
      simp only [valAux, digitVal_digitChar (n % 10) hm, List.length_append,
        List.length_cons, List.length_nil, pow_succ]
      have := Nat.div_add_mod n 10
      ring_nf
      omega

theorem natRepr_inj (m n : Nat) (h : natRepr m = natRepr n) : m = n := by
  have h1 : valAux 0 (natRepr m) = m := by
    have := valAux_natReprGo (m + 1) m 0 (by omega)
    simpa [natRepr] using this
  have h2 : valAux 0 (natRepr n) = n := by
    have := valAux_natReprGo (n + 1) n 0 (by omega)
    simpa [natRepr] using this
  rw [← h1, ← h2, h]

theorem rotName_inj (a b : Nat) (h : rotName a = rotName b) : a = b := by
  apply natRepr_inj
  have h2 : String.toList "log_" ++ (natRepr a ++ String.toList ".log") =
      String.toList "log_" ++ (natRepr b ++ String.toList ".log") := by
    simpa [rotName, List.append_assoc] using h
  have h3 : natRepr a ++ String.toList ".log" =
      natRepr b ++ String.toList ".log" :=
    List.append_cancel_left h2
  exact List.append_cancel_right h3

/-- C7 counterexample -- two rotations 800 ms apart, both inside wall-clock
second 5, generate the SAME file path (and the create-and-append open then
reuses the same file), contradicting the claim that they produce distinct
files. -/
theorem same_second_rotation_counterexample :
    (5100 : Nat) ≠ 5900 ∧ 5100 / 1000 = 5900 / 1000 ∧
    rotNameMs 5100 = rotNameMs 5900 := by
  refine ⟨by decide, by decide, ?_⟩
  decide

/-- C7 (amended) -- two rotations produce distinct file names exactly when
they fall in different wall-clock seconds; within the same second the
one-second-resolution timestamp collides, the path is reused and the
create-and-append open appends to the existing file. -/
theorem rotation_distinct_iff_distinct_second (ms1 ms2 : Nat) :
    rotNameMs ms1 = rotNameMs ms2 ↔ ms1 / 1000 = ms2 / 1000 := by
  constructor
  · intro h
    exact rotName_inj _ _ h
  · intro h
    rw [rotNameMs, rotNameMs, h]

/-! ## Per-record processing: actions and the File Sink write step -/

/-- Observable IO steps of the dispatcher loop, in program order. -/
inductive Action
  | fileAppend (path line : List Char)
  | fileFlush (path : List Char)
  | fileOpen (path : List Char)
  | fileDelete (path : List Char)
  | remoteSend (frame : List Char)
deriving DecidableEq, Repr

/-- Is the action a remote-sink write? -/
def Action.isRemote : Action → Bool
  | .remoteSend _ => true
  | _ => false

/-- File Sink state owned by the dispatcher (lib.rs 174-177): the deque of
known log-file paths (oldest first), the path of the currently-open file, and
`current_file_size`, the bytes this process wrote to it since opening. -/
structure SinkState where
  logFiles : List (List Char)
  current : List Char
  curSize : Nat
deriving DecidableEq, Repr

/-- One record through the File Sink (lib.rs 261-275), success path of the
IO: append the formatted line to the current file, add `bytes` to
`current_file_size`, flush; then — after the write — if `current_file_size >
max_file_size`, rotate: open `log_<TIMESTAMP>.log` create-and-append, push
its path, prune, and reset the size to 0.  `sec` is the rotation instant. -/
def fileWriteStep (maxFileSize maxFiles sec : Nat) (s : SinkState)
    (line : List Char) : SinkState × List Action :=
  let size := s.curSize + line.length
  if size > maxFileSize then
    let newPath := rotName sec
    let p := pruneFiles maxFiles (s.logFiles ++ [newPath])
    ({ logFiles := p.1, current := newPath, curSize := 0 },
      [.fileAppend s.current line, .fileFlush s.current, .fileOpen newPath] ++
        p.2.map .fileDelete)
  else
    ({ s with curSize := size },
      [.fileAppend s.current line, .fileFlush s.current])

/-- C3 -- File rotation is post-write: the step first appends the formatted
line to the current file and flushes it, incrementing `current_size` by the
bytes written, and rotates if and only if `current_size` exceeds
`max_file_size` after that write; a successful rotation opens a fresh
`log_<TIMESTAMP>.log` in create-and-append mode (becoming the current file)
and resets `current_size` to 0. -/
theorem file_rotation_post_write (maxFileSize maxFiles sec : Nat)
    (s : SinkState) (line : List Char) :
    ((fileWriteStep maxFileSize maxFiles sec s line).2)[0]? =
      some (.fileAppend s.current line) ∧
    ((fileWriteStep maxFileSize maxFiles sec s line).2)[1]? =
      some (.fileFlush s.current) ∧
    (s.curSize + line.length > maxFileSize ↔
      ((fileWriteStep maxFileSize maxFiles sec s line).2)[2]? =
        some (.fileOpen (rotName sec))) ∧
    (s.curSize + line.length > maxFileSize →
      (fileWriteStep maxFileSize maxFiles sec s line).1.curSize = 0 ∧
      (fileWriteStep maxFileSize maxFiles sec s line).1.current = rotName sec ∧
      (fileWriteStep maxFileSize maxFiles sec s line).1.logFiles =
        (rotateFile sec maxFiles s.logFiles).1) ∧
    (¬s.curSize + line.length > maxFileSize →
      fileWriteStep maxFileSize maxFiles sec s line =
        ({ s with curSize := s.curSize + line.length },
          [.fileAppend s.current line, .fileFlush s.current])) := by
  by_cases h : s.curSize + line.length > maxFileSize <;>
    simp [fileWriteStep, h, rotateFile]

/-- Concrete instance of C3: a 3-byte line on top of 4 accumulated bytes
crosses a 5-byte bound, so the state after the step is freshly rotated. -/
theorem file_rotation_post_write_witness :
    (fileWriteStep 5 2 9 ⟨[rotName 1], rotName 1, 4⟩ (String.toList "abc")).1.curSize = 0 ∧
    (fileWriteStep 5 2 9 ⟨[rotName 1], rotName 1, 4⟩ (String.toList "abc")).1.current = rotName 9 ∧
    (fileWriteStep 5 2 9 ⟨[rotName 1], rotName 1, 4⟩ (String.toList "abc")).1.logFiles =
      (rotateFile 9 2 [rotName 1]).1 :=
  (file_rotation_post_write 5 2 9 ⟨[rotName 1], rotName 1, 4⟩
    (String.toList "abc")).2.2.2.1 (by decide)

/-! ## C8: size bound on rotated-out files

The in-loop rotation is fallible: `if let Ok((new_file, _new_path)) =
rotate_file(...)` (lib.rs 270-274).  When the open inside `rotate_file`
fails, `rotate_file` returns `Err` before pushing the path, so the deque, the
current file and `current_file_size` are all left unchanged — in particular
the size stays above `max_file_size` and later writes keep accumulating on
the same file.  `rotateOk` models that branch per attempt. -/

/-- One record through the File Sink (lib.rs 261-275) with the in-loop
rotation failure branch: append + size increment + flush as in
`fileWriteStep`; then, if the size exceeds `max_file_size`, attempt to
rotate — on `rotateOk` install the fresh file at size 0, otherwise
(`rotate_file` returned `Err`) keep the old file and the accumulated size. -/
def fileWriteStepFallible (maxFileSize maxFiles sec : Nat) (rotateOk : Bool)
    (s : SinkState) (line : List Char) : SinkState × List Action :=
  let size := s.curSize + line.length
  if size > maxFileSize then
    if rotateOk then
      let newPath := rotName sec
      let p := pruneFiles maxFiles (s.logFiles ++ [newPath])
      ({ logFiles := p.1, current := newPath, curSize := 0 },
        [.fileAppend s.current line, .fileFlush s.current, .fileOpen newPath] ++
          p.2.map .fileDelete)
    else
      ({ s with curSize := size },
        [.fileAppend s.current line, .fileFlush s.current])
  else
    ({ s with curSize := size },
      [.fileAppend s.current line, .fileFlush s.current])

/-- When every rotation attempt succeeds, the fallible step is exactly the
success-path step. -/
theorem fileWriteStepFallible_rotateOk (maxFileSize maxFiles sec : Nat)
    (s : SinkState) (line : List Char) :
    fileWriteStepFallible maxFileSize maxFiles sec true s line =
      fileWriteStep maxFileSize maxFiles sec s line := by
  by_cases h : s.curSize + line.length > maxFileSize <;>
    simp [fileWriteStepFallible, fileWriteStep, h]

/-- Run the File Sink over a trace of records; each element carries the
rotation instant, whether the rotation attempt (if any) succeeds, and the
formatted line.  Collects, for every file rotated out (i.e. every successful
rotation), the size the closed file had reached at that moment. -/
def runFileSinkFallible (maxFileSize maxFiles : Nat) :
    SinkState → List (Nat × Bool × List Char) → SinkState × List Nat
  | s, [] => (s, [])
  | s, (sec, rok, line) :: rest =>
    let s' := (fileWriteStepFallible maxFileSize maxFiles sec rok s line).1
    let rec' := runFileSinkFallible maxFileSize maxFiles s' rest
    if s.curSize + line.length > maxFileSize then
      if rok then (rec'.1, (s.curSize + line.length) :: rec'.2)
      else (rec'.1, rec'.2)
    else (rec'.1, rec'.2)

/-- C8 counterexample -- with bound 5 and every line of length 4 (so L = 4),
a trace in which one rotation attempt fails closes its next rotated-out file
at size 12 > 5 + 4: the failed attempt leaves `current_file_size` at 8 over
the threshold and the next record accumulates before the rotation finally
succeeds, exceeding the claimed `max_file_size + L` bound. -/
theorem rotated_size_bound_counterexample :
    (∀ p ∈ [((1 : Nat), true, String.toList "aaaa"),
            (2, false, String.toList "bbbb"),
            (3, true, String.toList "cccc")],
      (p.2.2 : List Char).length ≤ 4) ∧
    12 ∈ (runFileSinkFallible 5 2 ⟨[rotName 0], rotName 0, 0⟩
      [(1, true, String.toList "aaaa"), (2, false, String.toList "bbbb"),
       (3, true, String.toList "cccc")]).2 ∧
    ¬(12 ≤ 5 + 4) := by
  decide

/-- C8 (amended) -- For every file rotated out of the current position, its
size is at most `max_file_size + L`, where `L` bounds the length of any
single formatted line, **provided no in-loop rotation attempt fails**: on the
rotation-success path a record can push the file over the threshold by at
most one line, because the sink rotates as soon as the accumulated size
exceeds the bound.  (A failed rotation open, lib.rs 270, leaves the size
above the threshold, and the bound can then be exceeded — see the
counterexample.) -/
theorem rotated_size_bound_amended (maxFileSize maxFiles L : Nat)
    (trace : List (Nat × Bool × List Char)) (s : SinkState)
    (hs : s.curSize ≤ maxFileSize)
    (hok : ∀ p ∈ trace, (p.2.1 : Bool) = true)
    (hL : ∀ p ∈ trace, (p.2.2 : List Char).length ≤ L) :
    ∀ n ∈ (runFileSinkFallible maxFileSize maxFiles s trace).2,
      n ≤ maxFileSize + L := by
  induction trace generalizing s with
  | nil => simp [runFileSinkFallible]
  | cons p rest ih =>
    obtain ⟨sec, rok, line⟩ := p
    have hrok : rok = true := hok (sec, rok, line) (by simp)
    subst hrok
    have hline : line.length ≤ L := hL (sec, true, line) (by simp)
    have hokRest : ∀ q ∈ rest, (q.2.1 : Bool) = true :=
      fun q hq => hok q (by simp [hq])
    have hrest : ∀ q ∈ rest, (q.2.2 : List Char).length ≤ L :=
      fun q hq => hL q (by simp [hq])
    by_cases h : s.curSize + line.length > maxFileSize
    · have hstep : (fileWriteStepFallible maxFileSize maxFiles sec true s
          line).1.curSize = 0 := by
        simp [fileWriteStepFallible, h]
      have hrun : (runFileSinkFallible maxFileSize maxFiles s
          ((sec, true, line) :: rest)).2 =
          (s.curSize + line.length) ::
            (runFileSinkFallible maxFileSize maxFiles
              (fileWriteStepFallible maxFileSize maxFiles sec true s line).1
              rest).2 := by
        simp [runFileSinkFallible, h]
      intro n hn
      rw [hrun, List.mem_cons] at hn
      rcases hn with rfl | hn
      · omega
      · exact ih _ (by rw [hstep]; omega) hokRest hrest n hn
    · have hstep : (fileWriteStepFallible maxFileSize maxFiles sec true s
          line).1.curSize = s.curSize + line.length := by
        simp [fileWriteStepFallible, h]
      have hrun : (runFileSinkFallible maxFileSize maxFiles s
          ((sec, true, line) :: rest)).2 =
          (runFileSinkFallible maxFileSize maxFiles
            (fileWriteStepFallible maxFileSize maxFiles sec true s line).1
            rest).2 := by
        simp [runFileSinkFallible, h]
      intro n hn
      rw [hrun] at hn
      exact ih _ (by rw [hstep]; omega) hokRest hrest n hn

/-- Concrete instance of the amended C8: bound 5, line lengths at most 4, all
rotations succeeding — the one rotated-out file closes at size 7 ≤ 5 + 4. -/
theorem rotated_size_bound_amended_witness :
    7 ∈ (runFileSinkFallible 5 2 ⟨[rotName 0], rotName 0, 0⟩
      [(1, true, String.toList "aaaa"), (2, true, String.toList "bbb"),
       (3, true, String.toList "cccc")]).2 ∧ 7 ≤ 5 + 4 :=
  ⟨by decide,
    rotated_size_bound_amended 5 2 4
      [(1, true, String.toList "aaaa"), (2, true, String.toList "bbb"),
       (3, true, String.toList "cccc")]
      ⟨[rotName 0], rotName 0, 0⟩ (by decide) (by decide) (by decide)
      7 (by decide)⟩

/-! ## Intake: the bounded channel and the `log::Log` facade (C5) -/

/-- The channel capacity fixed at lib.rs 154: `mpsc::channel::<LogMessage>(100)`. -/
def channelCapacity : Nat := 100

/-- `LogMessage` (lib.rs 129-133). -/
structure LogMessage where
  level : LogLevel
  target : List Char
  body : List Char
deriving DecidableEq, Repr

/-- `mpsc::Sender::try_send` on the bounded channel: enqueue when below
capacity, otherwise reject (returning the message in `TrySendError::Full`)
without waiting.  The queue is the list of buffered messages, oldest first. -/
def trySend (queue : List LogMessage) (m : LogMessage) :
    List LogMessage × Bool :=
  if queue.length < channelCapacity then (queue ++ [m], true) else (queue, false)

/-- `log::Log::log` for `AsyncLogger` (lib.rs 317-323): capture level, target
and formatted body, `try_send`, and discard the result (`let _ = ...`) — the
producer gets no error and is never suspended. -/
def asyncLoggerLog (queue : List LogMessage) (m : LogMessage) : List LogMessage :=
  (trySend queue m).1

/-- C5 -- The Intake offer (the facade's `log`) is non-blocking for every
queue state: on a full queue (capacity 100) the record is dropped and the
queue is unchanged — the rejection is absorbed by the facade, so no error
reaches the producer — and below capacity the record is appended.  The
operation is a total function of the queue: it returns synchronously in both
cases, never suspending the producer. -/
theorem offer_non_blocking (queue : List LogMessage) (m : LogMessage) :
    (channelCapacity ≤ queue.length →
      asyncLoggerLog queue m = queue ∧ (trySend queue m).2 = false) ∧
    (queue.length < channelCapacity →
      asyncLoggerLog queue m = queue ++ [m] ∧ (trySend queue m).2 = true) := by
  refine ⟨fun h => ?_, fun h => ?_⟩
  · have hc : ¬queue.length < channelCapacity := by omega
    simp [asyncLoggerLog, trySend, hc]
  · simp [asyncLoggerLog, trySend, h]

/-- Concrete instance of C5: a queue holding 100 messages drops the offered
record and stays unchanged. -/
theorem offer_non_blocking_witness :
    asyncLoggerLog
        (List.replicate 100 ⟨.info, String.toList "t", String.toList "b"⟩)
        ⟨.error, String.toList "u", String.toList "c"⟩ =
      List.replicate 100 ⟨.info, String.toList "t", String.toList "b"⟩ :=
  ((offer_non_blocking _ _).1 (by simp [channelCapacity])).1

/-! ## Dispatcher: configuration, setup and the per-record loop -/

/-- `LoggerConfig` (lib.rs 137-145), field names as in the source. -/
structure LoggerConfig where
  log_dir : List Char
  max_file_size : Nat
  max_files : Nat
  papertrail_endpoint : Option (List Char)
  hostname : List Char
  enable_local : Bool
  enable_papertrail : Bool
deriving DecidableEq, Repr

/-- One iteration of the dispatcher loop (lib.rs 256-297): the timestamp `ts`
(`now`, line 258) is computed once and used by both the file line and the
remote frame; the File Sink is stepped first (261-275), then the remote send
is attempted (278-297) — only if the TLS writer exists. -/
def dispatchRecord (cfg : LoggerConfig) (writerConnected : Bool)
    (ts : List Char) (sec : Nat) (s : SinkState) (msg : LogMessage) :
    SinkState × List Action :=
  let line := logLine msg.level ts msg.target msg.body
  let fp := if cfg.enable_local then
      fileWriteStep cfg.max_file_size cfg.max_files sec s line
    else (s, [])
  let remoteActs :=
    if cfg.enable_papertrail && writerConnected then
      [Action.remoteSend (syslogFrame msg.level ts cfg.hostname msg.target msg.body)]
    else []
  (fp.1, fp.2 ++ remoteActs)

theorem fileWriteStep_no_remote (maxFileSize maxFiles sec : Nat)
    (s : SinkState) (line : List Char) :
    ∀ a ∈ (fileWriteStep maxFileSize maxFiles sec s line).2,
      a.isRemote = false := by
  intro a ha
  by_cases h : s.curSize + line.length > maxFileSize <;>
    simp [fileWriteStep, h] at ha
  · rcases ha with rfl | rfl | rfl | ⟨x, _, rfl⟩ <;> rfl
  · rcases ha with rfl | rfl <;> rfl

/-- C9 -- With both sinks enabled and the remote writer connected, each
dequeued record is processed sequentially: first all File Sink steps (the
append of the formatted line leads, followed by flush and any rotation), then
exactly one remote send — and both outputs are built from the one timestamp
`ts` computed at dequeue time. -/
theorem per_record_sequencing (cfg : LoggerConfig) (ts : List Char) (sec : Nat)
    (s : SinkState) (msg : LogMessage)
    (hl : cfg.enable_local = true) (hr : cfg.enable_papertrail = true) :
    dispatchRecord cfg true ts sec s msg =
      ((fileWriteStep cfg.max_file_size cfg.max_files sec s
          (logLine msg.level ts msg.target msg.body)).1,
        (fileWriteStep cfg.max_file_size cfg.max_files sec s
          (logLine msg.level ts msg.target msg.body)).2 ++
        [.remoteSend (syslogFrame msg.level ts cfg.hostname msg.target msg.body)]) ∧
    (∀ a ∈ (fileWriteStep cfg.max_file_size cfg.max_files sec s
        (logLine msg.level ts msg.target msg.body)).2, a.isRemote = false) ∧
    ((fileWriteStep cfg.max_file_size cfg.max_files sec s
        (logLine msg.level ts msg.target msg.body)).2)[0]? =
      some (.fileAppend s.current (logLine msg.level ts msg.target msg.body)) := by
  refine ⟨?_, fileWriteStep_no_remote _ _ _ _ _, ?_⟩
  · simp [dispatchRecord, hl, hr]
  · by_cases h : s.curSize + (logLine msg.level ts msg.target msg.body).length >
        cfg.max_file_size <;>
      simp [fileWriteStep, h]

/-! ## Dispatcher startup (lib.rs 164-253) and whole-task model (C6, C10) -/

/-- Success flags for the fallible setup IO, one per `Result` branch taken in
the source: `create_dir_all` (line 167), the initial `rotate_file` open
(line 224), `TcpStream::connect` (line 239), the TLS handshake (line 242). -/
structure EnvFlags where
  mkdirOk : Bool
  initialOpenOk : Bool
  tcpOk : Bool
  tlsOk : Bool
deriving DecidableEq, Repr

/-- `endpoint.split_once(':')` (lib.rs 184): the host used for the TLS
server name is the prefix before the first colon, defined only when the
endpoint contains one. -/
def endpointHost (ep : List Char) : Option (List Char) :=
  if ':' ∈ ep then some (ep.takeWhile (fun c => c ≠ ':')) else none

/-- Does the startup connect attempt produce a writer (lib.rs 236-253)?
Requires the remote sink enabled, an endpoint with a parsable host, a
successful TCP connect and a successful TLS handshake; on any failure the
diagnostic is printed and `writer` stays `None`. -/
def remoteConnects (cfg : LoggerConfig) (env : EnvFlags) : Bool :=
  cfg.enable_papertrail &&
    (match cfg.papertrail_endpoint with
     | some ep => (endpointHost ep).isSome && env.tcpOk && env.tlsOk
     | none => false)

/-- File Sink state right after startup: discovery seeds the deque with the
pre-existing `.log` paths (lib.rs 211-220), then the initial rotation runs
(lib.rs 222-233) and `current_file_size` is reset to 0. -/
def initState (cfg : LoggerConfig) (seeded : List (List Char))
    (initSec : Nat) : SinkState :=
  if cfg.enable_local then
    { logFiles := (rotateFile initSec cfg.max_files seeded).1,
      current := rotName initSec, curSize := 0 }
  else { logFiles := [], current := [], curSize := 0 }

/-- The main receive loop (lib.rs 256-298) over the dequeued records, each
with its dequeue-time timestamp (`ts` as rendered text, `sec` for rotation
names).  The writer flag never changes inside the loop: the source never
reconnects. -/
def dispatchLoop (cfg : LoggerConfig) (writerConnected : Bool) :
    SinkState → List (List Char × Nat × LogMessage) → SinkState × List Action
  | s, [] => (s, [])
  | s, (ts, sec, msg) :: rest =>
    let st := dispatchRecord cfg writerConnected ts sec s msg
    let lp := dispatchLoop cfg writerConnected st.1 rest
    (lp.1, st.2 ++ lp.2)

/-- Outcome of the spawned dispatcher task. -/
inductive DispatchOutcome
  | earlyExit
  | ran (remoteConnected : Bool) (actions : List Action) (final : SinkState)
deriving DecidableEq, Repr

/-- All IO actions the task performed after setup. -/
def DispatchOutcome.actions : DispatchOutcome → List Action
  | .earlyExit => []
  | .ran _ a _ => a

/-- Did the task ever hold a connected remote writer? -/
def DispatchOutcome.remoteUp : DispatchOutcome → Bool
  | .earlyExit => false
  | .ran c _ _ => c

/-- The dispatcher task (lib.rs 164-299): if local logging is enabled and
`create_dir_all` fails, print and `return` (167-170); after discovery, if the
initial `rotate_file` fails, print and `return` (224-230) — both before the
connect attempt; a TCP/TLS connect failure only leaves `writer = None`
(236-253) and the loop still runs. -/
def dispatcherRun (cfg : LoggerConfig) (env : EnvFlags)
    (seeded : List (List Char)) (initSec : Nat)
    (records : List (List Char × Nat × LogMessage)) : DispatchOutcome :=
  if cfg.enable_local && !env.mkdirOk then .earlyExit
  else if cfg.enable_local && !env.initialOpenOk then .earlyExit
  else
    let c := remoteConnects cfg env
    let lp := dispatchLoop cfg c (initState cfg seeded initSec) records
    .ran c lp.2 lp.1

theorem dispatchRecord_no_remote (cfg : LoggerConfig) (ts : List Char)
    (sec : Nat) (s : SinkState) (msg : LogMessage) :
    ∀ a ∈ (dispatchRecord cfg false ts sec s msg).2, a.isRemote = false := by
  intro a ha
  by_cases hl : cfg.enable_local
  · simp [dispatchRecord, hl] at ha
    exact fileWriteStep_no_remote _ _ _ _ _ a ha
  · simp [dispatchRecord, hl] at ha

theorem dispatchLoop_no_remote (cfg : LoggerConfig) (s : SinkState)
    (records : List (List Char × Nat × LogMessage)) :
    ∀ a ∈ (dispatchLoop cfg false s records).2, a.isRemote = false := by
  induction records generalizing s with
  | nil => simp [dispatchLoop]
  | cons p rest ih =>
    obtain ⟨ts, sec, msg⟩ := p
    intro a ha
    simp only [dispatchLoop, List.mem_append] at ha
    rcases ha with ha | ha
    · exact dispatchRecord_no_remote cfg ts sec s msg a ha
    · exact ih _ a ha

/-- C6 -- Setup failures are asymmetric.  If `enable_local` is set and
creating the log directory fails, the task terminates (before the connect
attempt).  If instead `enable_papertrail` is set and the TCP connect or the
TLS handshake fails, the task keeps running with the writer left `None` for
the whole run — it behaves exactly like a run with a disconnected writer, no
remote send ever happens, and the File Sink still processes every record. -/
theorem setup_failure_asymmetry (cfg : LoggerConfig) (env : EnvFlags)
    (seeded : List (List Char)) (initSec : Nat)
    (records : List (List Char × Nat × LogMessage)) :
    (cfg.enable_local = true → env.mkdirOk = false →
      dispatcherRun cfg env seeded initSec records = .earlyExit) ∧
    (cfg.enable_papertrail = true → (env.tcpOk = false ∨ env.tlsOk = false) →
      (cfg.enable_local = true → env.mkdirOk = true ∧ env.initialOpenOk = true) →
      dispatcherRun cfg env seeded initSec records =
        .ran false
          (dispatchLoop cfg false (initState cfg seeded initSec) records).2
          (dispatchLoop cfg false (initState cfg seeded initSec) records).1 ∧
      ∀ a ∈ (dispatchLoop cfg false (initState cfg seeded initSec) records).2,
        a.isRemote = false) := by
  constructor
  · intro hl hm
    simp [dispatcherRun, hl, hm]
  · intro _ hfail hlocal
    have hmk : (cfg.enable_local && !env.mkdirOk) = false := by
      cases hle : cfg.enable_local
      · simp
      · simp [(hlocal hle).1]
    have hop : (cfg.enable_local && !env.initialOpenOk) = false := by
      cases hle : cfg.enable_local
      · simp
      · simp [(hlocal hle).2]
    have hconn : remoteConnects cfg env = false := by
      unfold remoteConnects
      rcases hfail with hf | hf <;>
        rcases hep : cfg.papertrail_endpoint with _ | ep <;>
        simp [hf, hep]
    refine ⟨?_, dispatchLoop_no_remote cfg _ records⟩
    simp [dispatcherRun, hmk, hop, hconn]

/-- C10 -- If `enable_local` is set, the directory was created, but the
startup rotation (the initial log-file open) fails, the whole task returns
after the diagnostic: no record is ever processed by either sink, and the
remote writer is never established — even with the remote sink enabled and
the endpoint reachable (TCP and TLS would both succeed). -/
theorem initial_open_failure_kills_task (cfg : LoggerConfig) (env : EnvFlags)
    (seeded : List (List Char)) (initSec : Nat)
    (records : List (List Char × Nat × LogMessage))
    (hl : cfg.enable_local = true) (hm : env.mkdirOk = true)
    (ho : env.initialOpenOk = false) (_hr : cfg.enable_papertrail = true)
    (_htcp : env.tcpOk = true) (_htls : env.tlsOk = true) :
    dispatcherRun cfg env seeded initSec records = .earlyExit ∧
    (dispatcherRun cfg env seeded initSec records).actions = [] ∧
    (dispatcherRun cfg env seeded initSec records).remoteUp = false := by
  have h : dispatcherRun cfg env seeded initSec records = .earlyExit := by
    simp [dispatcherRun, hl, hm, ho]
  exact ⟨h, by rw [h]; rfl, by rw [h]; rfl⟩

/-! Concrete configuration and environments for the witnesses. -/

def cfgW : LoggerConfig :=
  { log_dir := String.toList "logs"
    max_file_size := 5
    max_files := 2
    papertrail_endpoint := some (String.toList "h:1")
    hostname := String.toList "host"
    enable_local := true
    enable_papertrail := true }

def envRemoteDown : EnvFlags := ⟨true, true, false, true⟩

def envOpenFail : EnvFlags := ⟨true, false, true, true⟩

def msgW : LogMessage := ⟨.info, String.toList "t", String.toList "b"⟩

/-- Concrete instance of C9: the file append of the formatted line leads the
per-record action sequence. -/
theorem per_record_sequencing_witness :
    ((fileWriteStep cfgW.max_file_size cfgW.max_files 0
        ⟨[rotName 0], rotName 0, 0⟩
        (logLine msgW.level (String.toList "T") msgW.target msgW.body)).2)[0]? =
      some (.fileAppend (rotName 0)
        (logLine msgW.level (String.toList "T") msgW.target msgW.body)) :=
  (per_record_sequencing cfgW (String.toList "T") 0 ⟨[rotName 0], rotName 0, 0⟩
    msgW rfl rfl).2.2

/-- Concrete instance of C6: with TCP down, the dispatcher still runs the
loop with the writer disconnected. -/
theorem setup_failure_asymmetry_witness :
    dispatcherRun cfgW envRemoteDown [] 0 [(String.toList "T", 0, msgW)] =
      .ran false
        (dispatchLoop cfgW false (initState cfgW [] 0)
          [(String.toList "T", 0, msgW)]).2
        (dispatchLoop cfgW false (initState cfgW [] 0)
          [(String.toList "T", 0, msgW)]).1 ∧
    ∀ a ∈ (dispatchLoop cfgW false (initState cfgW [] 0)
        [(String.toList "T", 0, msgW)]).2, a.isRemote = false :=
  (setup_failure_asymmetry cfgW envRemoteDown [] 0
    [(String.toList "T", 0, msgW)]).2 rfl (Or.inl rfl) (fun _ => ⟨rfl, rfl⟩)

/-- Concrete instance of C10: a failed initial open ends the task even though
the remote endpoint would be reachable. -/
theorem initial_open_failure_witness :
    dispatcherRun cfgW envOpenFail [] 0 [(String.toList "T", 0, msgW)] =
      .earlyExit ∧
    (dispatcherRun cfgW envOpenFail [] 0
      [(String.toList "T", 0, msgW)]).actions = [] ∧
    (dispatcherRun cfgW envOpenFail [] 0
      [(String.toList "T", 0, msgW)]).remoteUp = false :=
  initial_open_failure_kills_task cfgW envOpenFail [] 0
    [(String.toList "T", 0, msgW)] rfl rfl rfl rfl rfl rfl

end Papertrail
